import Mathlib

/-!
Shallow embedding of the classic-operations library
(sources/classic/operations/{operation.py, callbacks.py, counter.py}).

Callbacks and context managers are identified by natural-number ids; an
environment assigns each id a behaviour (return normally, or raise a given
exception).  Every invocation of a callback or of a context-manager method
is recorded in an event trace, so ordering claims become statements about
traces.  Python exceptions are modelled by the inductive type Exc; a
function that may raise returns the exception in an Option or Except.
Machine-level details (threading.local storage, tracebacks) are outside the
model: all state is per-execution-context by construction.
-/

namespace ClassicOperations

/-- Python exception values that can arise in this library. -/
inductive Exc where
  /-- TypeError raised by a call with an unexpected keyword argument;
      carries the offending argument name. -/
  | typeError (arg : String)
  /-- AttributeError from accessing a missing attribute. -/
  | attributeError (attr : String)
  /-- AssertionError from a failed assert statement. -/
  | assertionError
  /-- RuntimeError(errors) raised by Operation._try_handle_all. -/
  | runtimeError (errors : List Exc)
  /-- The Cancel exception of operation.py, with its suppress flag. -/
  | cancel (suppress : Bool)
  /-- An arbitrary user exception, tagged by a number. -/
  | user (n : Nat)

/-- One observable event of an execution. -/
inductive Event where
  /-- A callback with the given id was invoked. -/
  | call (cb : Nat)
  /-- The enter method of context manager cm was invoked. -/
  | cmEnter (cm : Nat)
  /-- The exit method of context manager cm was invoked. -/
  | cmExit (cm : Nat)
deriving DecidableEq, Repr

/-- Behaviour environment: what each callback and each context-manager
method does when invoked (none = returns normally). -/
structure Env where
  cbRaises : Nat → Option Exc
  cmEnterRaises : Nat → Option Exc
  cmExitRaises : Nat → Option Exc

/-- The Callbacks dataclass of callbacks.py: its only fields are
persistent and transient, both defaulting to empty lists. -/
structure Callbacks where
  persistent : List Nat := []
  transient : List Nat := []
deriving DecidableEq, Repr

/-- The keyword parameters accepted by the generated dataclass constructor
of Callbacks (its field names). -/
def callbacksFields : List String := ["persistent", "transient"]

/-- Python keyword-call semantics for the Callbacks dataclass constructor:
a keyword argument that is not a field name raises
TypeError(unexpected keyword argument), naming the first such argument;
otherwise the named fields are set and the rest default to empty lists. -/
def callbacksInit (kwargs : List (String × List Nat)) : Except Exc Callbacks :=
  match kwargs.find? (fun kv => !(callbacksFields.contains kv.1)) with
  | some kv => .error (.typeError kv.1)
  | none =>
    .ok { persistent := (((kwargs.find? (fun kv => kv.1 == "persistent")).map Prod.snd).getD [])
          transient := (((kwargs.find? (fun kv => kv.1 == "transient")).map Prod.snd).getD []) }

/-- Attribute access current.attr where current holds an optional Callbacks
value: None has no attributes, and a Callbacks instance only has the
attributes persistent and transient; any other name raises AttributeError. -/
def currentGetattr (current : Option Callbacks) (attr : String) : Except Exc (List Nat) :=
  match current with
  | none => .error (.attributeError attr)
  | some c =>
    if attr = "persistent" then .ok c.persistent
    else if attr = "transient" then .ok c.transient
    else .error (.attributeError attr)

/-- An optional argument of Operation.__init__: None, a single object, or a
list of objects (the to_list helper of operation.py normalises all three). -/
inductive PyArg where
  | none
  | single (x : Nat)
  | list (xs : List Nat)
deriving DecidableEq, Repr

/-- The to_list helper of operation.py. -/
def to_list : PyArg → List Nat
  | .none => []
  | .single x => [x]
  | .list xs => xs

/-- The mutable state of an Operation instance (class Operation of
operation.py), with context managers and callbacks named by their ids. -/
structure Operation where
  _context_managers : List Nat
  _before_start : List Nat
  _after_start : List Nat
  _before_complete : List Nat
  _after_complete : List Nat
  _on_cancel : List Nat
  _on_finish : List Nat
  /-- Context managers currently registered on the ExitStack, in entry order. -/
  _exit_stack : List Nat
  _calls_count : Int
  _current : Option Callbacks
deriving DecidableEq, Repr

/-- Operation.__init__: normalises every argument with to_list, starts with
an empty exit stack, a zero calls count and no current callbacks container. -/
def Operation.init (context_managers before_start after_start before_complete
    after_complete on_cancel on_finish : PyArg) : Operation :=
  { _context_managers := to_list context_managers
    _before_start := to_list before_start
    _after_start := to_list after_start
    _before_complete := to_list before_complete
    _after_complete := to_list after_complete
    _on_cancel := to_list on_cancel
    _on_finish := to_list on_finish
    _exit_stack := []
    _calls_count := 0
    _current := none }

/-- Operation._new_callbacks: calls the Callbacks constructor with the four
keyword arguments before_complete, after_complete, on_cancel and on_finish,
each bound to a copy of the corresponding static list (list copies are the
identity on immutable Lean lists). -/
def Operation._new_callbacks (op : Operation) : Except Exc Callbacks :=
  callbacksInit
    [("before_complete", op._before_complete),
     ("after_complete", op._after_complete),
     ("on_cancel", op._on_cancel),
     ("on_finish", op._on_finish)]

/-- Operation._handle_for_first_error: invoke the callbacks in order without
catching errors; the first raising callback aborts the rest (it is still
invoked, hence still traced). -/
def handleForFirstError (env : Env) : List Nat → Option Exc × List Event
  | [] => (none, [])
  | c :: rest =>
    match env.cbRaises c with
    | some e => (some e, [.call c])
    | none =>
      let r := handleForFirstError env rest
      (r.1, .call c :: r.2)

/-- Operation._try_handle_all: invoke every callback, accumulating the raised
errors; if any occurred, raise RuntimeError(errors). -/
def tryHandleAll (env : Env) (cbs : List Nat) : Option Exc × List Event :=
  let errors := cbs.filterMap env.cbRaises
  ((if errors.isEmpty then none else some (.runtimeError errors)), cbs.map Event.call)

/-- ExitStack.__exit__ over the registered context managers, taken here in
exit order (reverse of entry order): every exit method is invoked; if any
of them raises, the stack exit raises, the last raiser winning.  The
boolean result of the stack exit is ignored by operation.py, so only the
raised exception is modelled. -/
def exitStackRaise (env : Env) : List Nat → Option Exc × List Event
  | [] => (none, [])
  | c :: rest =>
    let r := exitStackRaise env rest
    ((match r.1 with
      | some e => some e
      | none => env.cmExitRaises c), .cmExit c :: r.2)

/-- Operation._cancel: _try_handle_all(self._current.on_cancel).  The
attribute access goes through currentGetattr because the shipped Callbacks
class has no on_cancel attribute. -/
def Operation._cancel (env : Env) (op : Operation) : Option Exc × List Event :=
  match currentGetattr op._current "on_cancel" with
  | .error e => (some e, [])
  | .ok cbs => tryHandleAll env cbs

/-- Operation._finish: _try_handle_all(self._current.on_finish) followed by
del self._current; the delete only happens when nothing raised before it. -/
def Operation._finish (env : Env) (op : Operation) : Operation × Option Exc × List Event :=
  match currentGetattr op._current "on_finish" with
  | .error e => (op, some e, [])
  | .ok cbs =>
    let r := tryHandleAll env cbs
    match r.1 with
    | some e => (op, some e, r.2)
    | none => ({ op with _current := none }, none, r.2)

/-- enter_context over the configured context managers in order: each enter
method is invoked; a raise aborts the loop, leaving the successfully
entered prefix registered on the stack. -/
def enterCms (env : Env) : List Nat → List Nat × Option Exc × List Event
  | [] => ([], none, [])
  | c :: rest =>
    match env.cmEnterRaises c with
    | some e => ([], some e, [.cmEnter c])
    | none =>
      let r := enterCms env rest
      (c :: r.1, r.2.1, .cmEnter c :: r.2.2)

/-- The except clause of Operation.__enter__: unwind the exit stack (a raise
from the unwind is remembered as new_exc), then try self._cancel() finally
self._finish(), then raise new_exc or exc.  An exception raised by _finish
replaces one raised by _cancel, which replaces new_exc or exc. -/
def enterFailure (env : Env) (op : Operation) (exc : Exc) : Operation × Exc × List Event :=
  let u := exitStackRaise env op._exit_stack.reverse
  let op1 := { op with _exit_stack := [] }
  let c := Operation._cancel env op1
  let f := Operation._finish env op1
  let final : Exc :=
    match f.2.1 with
    | some e => e
    | none =>
      match c.1 with
      | some e => e
      | none => u.1.getD exc
  (f.1, final, u.2 ++ c.2 ++ f.2.2)

/-- Operation.__enter__: at calls count zero, build the new callbacks
container (this is where the shipped code raises), then run before_start
fail-fast, enter the context managers in order, run after_start fail-fast;
any failure goes through the except clause.  Finally the calls count is
incremented; at nonzero calls count only the increment happens. -/
def Operation.enter (env : Env) (op : Operation) : Operation × Option Exc × List Event :=
  if op._calls_count = 0 then
    match Operation._new_callbacks op with
    | .error e => (op, some e, [])
    | .ok cur =>
      let op1 := { op with _current := some cur }
      let h1 := handleForFirstError env op1._before_start
      match h1.1 with
      | some e =>
        let r := enterFailure env op1 e
        (r.1, some r.2.1, h1.2 ++ r.2.2)
      | none =>
        let ec := enterCms env op1._context_managers
        let op2 := { op1 with _exit_stack := ec.1 }
        match ec.2.1 with
        | some e =>
          let r := enterFailure env op2 e
          (r.1, some r.2.1, h1.2 ++ ec.2.2 ++ r.2.2)
        | none =>
          let h2 := handleForFirstError env op2._after_start
          match h2.1 with
          | some e =>
            let r := enterFailure env op2 e
            (r.1, some r.2.1, h1.2 ++ ec.2.2 ++ h2.2 ++ r.2.2)
          | none =>
            ({ op2 with _calls_count := op2._calls_count + 1 }, none,
              h1.2 ++ ec.2.2 ++ h2.2)
  else
    ({ op with _calls_count := op._calls_count + 1 }, none, [])

/-- What a Python __exit__ method does at the boundary: either return a
boolean (true suppresses the exception being handled) or raise. -/
inductive ExitOutcome where
  | returns (b : Bool)
  | raises (e : Exc)

/-- Operation.__exit__, called with the exception (if any) raised by the
guarded body.  It first decrements the calls count and returns False
immediately if the count is nonzero.  At count zero: when no exception came
in, before_complete is run fail-fast (a raise is caught and becomes the
pending exception); then the exit stack is unwound (a raise from the unwind
replaces the pending exception); then, if no exception is pending,
after_complete is run fail-fast, otherwise the pending exception is
re-raised so that a failure triggers _cancel; the except clause runs
_cancel and re-raises; the finally clause runs _finish (whose raise would
replace the in-flight exception) and, when the pending exception variable
holds a Cancel, returns its suppress flag from inside finally, swallowing
any in-flight exception. -/
def Operation.exit (env : Env) (op0 : Operation) (excIn : Option Exc) :
    Operation × ExitOutcome × List Event :=
  let opa := { op0 with _calls_count := op0._calls_count - 1 }
  if opa._calls_count ≠ 0 then
    (opa, .returns false, [])
  else
    let p1 : Option Exc × List Event :=
      match excIn with
      | some e => (some e, [])
      | none =>
        match currentGetattr opa._current "before_complete" with
        | .error e => (some e, [])
        | .ok cbs => handleForFirstError env cbs
    let p2 := exitStackRaise env opa._exit_stack.reverse
    let opb := { opa with _exit_stack := [] }
    let exc2 : Option Exc :=
      match p2.1 with
      | some e => some e
      | none => p1.1
    let p3 : Option Exc × List Event :=
      match exc2 with
      | none =>
        match currentGetattr opb._current "after_complete" with
        | .error e =>
          let c := Operation._cancel env opb
          (some (c.1.getD e), c.2)
        | .ok cbs =>
          let r := handleForFirstError env cbs
          match r.1 with
          | some e =>
            let c := Operation._cancel env opb
            (some (c.1.getD e), r.2 ++ c.2)
          | none => (none, r.2)
      | some e =>
        let c := Operation._cancel env opb
        (some (c.1.getD e), c.2)
    let f := Operation._finish env opb
    let inFlight : Option Exc :=
      match f.2.1 with
      | some e => some e
      | none => p3.1
    let outcome : ExitOutcome :=
      match exc2 with
      | some (.cancel s) => .returns s
      | _ =>
        match inFlight with
        | some e => .raises e
        | none => .returns false
    (f.1, outcome, p1.2 ++ p2.2 ++ p3.2 ++ f.2.2)

/-- The in_progress property: the calls count is positive. -/
def Operation.in_progress (op : Operation) : Bool :=
  decide (0 < op._calls_count)

/-- Shared body of the four dynamic-registration methods: assert
self.in_progress (raising AssertionError when the operation is not in
progress), then access self._current.attr and append the callback to it. -/
def registerOn (op : Operation) (attr : String) (cb : Nat) : Operation × Option Exc :=
  if Operation.in_progress op then
    match currentGetattr op._current attr with
    | .error e => (op, some e)
    | .ok _ =>
      match op._current with
      | none => (op, none)
      | some cur =>
        if attr = "persistent" then
          ({ op with _current := some { cur with persistent := cur.persistent ++ [cb] } }, none)
        else if attr = "transient" then
          ({ op with _current := some { cur with transient := cur.transient ++ [cb] } }, none)
        else (op, none)
  else
    (op, some .assertionError)

/-- Operation.before_complete (the registration method). -/
def Operation.before_complete (op : Operation) (cb : Nat) : Operation × Option Exc :=
  registerOn op "before_complete" cb

/-- Operation.after_complete (the registration method). -/
def Operation.after_complete (op : Operation) (cb : Nat) : Operation × Option Exc :=
  registerOn op "after_complete" cb

/-- Operation.on_cancel (the registration method). -/
def Operation.on_cancel (op : Operation) (cb : Nat) : Operation × Option Exc :=
  registerOn op "on_cancel" cb

/-- Operation.on_finish (the registration method). -/
def Operation.on_finish (op : Operation) (cb : Nat) : Operation × Option Exc :=
  registerOn op "on_finish" cb

/-- Python with-statement semantics over an Operation: run __enter__ (a
raise skips body and __exit__); on success run the body (which either
completes or raises), then __exit__ with the body exception; a raising
__exit__ propagates its exception, a returned True suppresses the body
exception, a returned False lets it propagate.  The middle component is the
exception escaping the whole with-block, none meaning normal completion. -/
def runWith (env : Env) (op : Operation) (body : Option Exc) :
    Operation × Option Exc × List Event :=
  match Operation.enter env op with
  | (op1, some e, evs) => (op1, some e, evs)
  | (op1, none, evs) =>
    let r := Operation.exit env op1 body
    match r.2.1 with
    | .raises e => (r.1, some e, evs ++ r.2.2)
    | .returns b =>
      match body with
      | some e => if b then (r.1, none, evs ++ r.2.2) else (r.1, some e, evs ++ r.2.2)
      | none => (r.1, none, evs ++ r.2.2)

/-- One call against an Operation: enter, exit, or one of the four dynamic
registration methods. -/
inductive Act where
  | enterA
  | exitA (exc : Option Exc)
  | regBeforeComplete (cb : Nat)
  | regAfterComplete (cb : Nat)
  | regOnCancel (cb : Nat)
  | regOnFinish (cb : Nat)

/-- Apply one Act to the state, keeping the resulting state and the trace
of the call (exceptions escape to the caller and leave the state as the
call left it). -/
def stepAct (env : Env) (op : Operation) : Act → Operation × List Event
  | .enterA =>
    let r := Operation.enter env op
    (r.1, r.2.2)
  | .exitA exc =>
    let r := Operation.exit env op exc
    (r.1, r.2.2)
  | .regBeforeComplete cb => ((Operation.before_complete op cb).1, [])
  | .regAfterComplete cb => ((Operation.after_complete op cb).1, [])
  | .regOnCancel cb => ((Operation.on_cancel op cb).1, [])
  | .regOnFinish cb => ((Operation.on_finish op cb).1, [])

/-- Apply a sequence of Acts, concatenating the traces. -/
def runActsT (env : Env) (op : Operation) : List Act → Operation × List Event
  | [] => (op, [])
  | a :: rest =>
    let s := stepAct env op a
    let r := runActsT env s.1 rest
    (r.1, s.2 ++ r.2)

/-- The state reached by a sequence of Acts. -/
def runActs (env : Env) (op : Operation) (acts : List Act) : Operation :=
  (runActsT env op acts).1

/-- An environment in which every callback and context manager returns
normally. -/
def env0 : Env :=
  { cbRaises := fun _ => none
    cmEnterRaises := fun _ => none
    cmExitRaises := fun _ => none }

/-- A sample Operation with one context manager (id 10) and one statically
configured callback in each phase (ids 1 to 6). -/
def sampleOp : Operation :=
  Operation.init (.list [10]) (.single 1) (.single 2) (.single 3)
    (.single 4) (.single 5) (.single 6)

/-- A sample Operation with entirely default (None) configuration. -/
def freshOp : Operation :=
  Operation.init .none .none .none .none .none .none .none

/-- An environment in which callback 1 (the before_start callback of
sampleOp) raises a user exception, and everything else returns normally. -/
def env5 : Env :=
  { cbRaises := fun c => if c = 1 then some (.user 1) else none
    cmEnterRaises := fun _ => none
    cmExitRaises := fun _ => none }

/-- The Counter class of counter.py: a wrapped integer calls count. -/
structure Counter where
  _calls_count : Int
deriving DecidableEq, Repr

/-- Counter.__init__: the count starts at zero. -/
def Counter.init : Counter := { _calls_count := 0 }

/-- Counter.increment. -/
def Counter.increment (c : Counter) : Counter :=
  { _calls_count := c._calls_count + 1 }

/-- Counter.decrement: only decrements when the count is positive. -/
def Counter.decrement (c : Counter) : Counter :=
  if c._calls_count > 0 then { _calls_count := c._calls_count - 1 } else c

/-- Counter.reset. -/
def Counter.reset (_ : Counter) : Counter := { _calls_count := 0 }

/-- The is_zero property of Counter. -/
def Counter.is_zero (c : Counter) : Bool :=
  decide (c._calls_count = 0)

/-- The value property of Counter. -/
def Counter.value (c : Counter) : Int :=
  c._calls_count

/-- One Counter method call. -/
inductive CounterOp where
  | increment
  | decrement
  | reset
deriving DecidableEq, Repr

/-- Apply one Counter method. -/
def Counter.applyOp (c : Counter) : CounterOp → Counter
  | .increment => c.increment
  | .decrement => c.decrement
  | .reset => c.reset

/-- The Counter obtained by constructing a Counter and applying the given
sequence of method calls. -/
def Counter.runOps (ops : List CounterOp) : Counter :=
  ops.foldl Counter.applyOp Counter.init

theorem counter_applyOp_nonneg (c : Counter) (o : CounterOp)
    (h : 0 ≤ c._calls_count) : 0 ≤ (Counter.applyOp c o)._calls_count := by
  cases o with
  | increment =>
    show 0 ≤ c._calls_count + 1
    omega
  | decrement =>
    show 0 ≤ (Counter.decrement c)._calls_count
    unfold Counter.decrement
    split
    · show 0 ≤ c._calls_count - 1
      omega
    · exact h
  | reset =>
    show (0 : Int) ≤ 0
    omega

theorem counter_foldl_nonneg (ops : List CounterOp) (c : Counter)
    (h : 0 ≤ c._calls_count) : 0 ≤ (ops.foldl Counter.applyOp c)._calls_count := by
  induction ops generalizing c with
  | nil => exact h
  | cons o rest ih => exact ih _ (counter_applyOp_nonneg c o h)

theorem new_callbacks_spec (op : Operation) :
    Operation._new_callbacks op = .error (.typeError "before_complete") := rfl

/-- Operation.__enter__ at calls count zero: _new_callbacks raises
TypeError on the spot, so the state is unchanged and no event occurs. -/
theorem enter_idle (env : Env) (op : Operation) (h : op._calls_count = 0) :
    Operation.enter env op = (op, some (.typeError "before_complete"), []) := by
  unfold Operation.enter
  rw [if_pos h, new_callbacks_spec]

/-- Operation.__exit__ at nonpositive calls count: the decrement makes the
count nonzero, so the method returns False at once. -/
theorem exit_nonpos (env : Env) (op : Operation) (excIn : Option Exc)
    (h : op._calls_count ≤ 0) :
    Operation.exit env op excIn =
      ({ op with _calls_count := op._calls_count - 1 }, .returns false, []) := by
  have h1 : op._calls_count - 1 ≠ 0 := by omega
  simp [Operation.exit, h1]

theorem in_progress_false (op : Operation) (h : op._calls_count ≤ 0) :
    Operation.in_progress op = false := by
  unfold Operation.in_progress
  simp only [decide_eq_false_iff_not]
  omega

theorem registerOn_idle (op : Operation) (attr : String) (cb : Nat)
    (h : Operation.in_progress op = false) :
    registerOn op attr cb = (op, some .assertionError) := by
  simp [registerOn, h]

/-- Every single call leaves the calls count nonpositive when it was
nonpositive: enter at count zero raises before incrementing, enter at
negative count only increments, exit only decrements, and the registration
methods fail their assert without touching the count. -/
theorem stepAct_count_nonpos (env : Env) (op : Operation) (a : Act)
    (h : op._calls_count ≤ 0) : (stepAct env op a).1._calls_count ≤ 0 := by
  cases a with
  | enterA =>
    by_cases hc : op._calls_count = 0
    · simp [stepAct, enter_idle env op hc]
      omega
    · simp [stepAct, Operation.enter, hc]
      omega
  | exitA e =>
    simp [stepAct, exit_nonpos env op e h]
    omega
  | regBeforeComplete cb =>
    simp [stepAct, Operation.before_complete,
      registerOn_idle _ _ _ (in_progress_false op h)]
    omega
  | regAfterComplete cb =>
    simp [stepAct, Operation.after_complete,
      registerOn_idle _ _ _ (in_progress_false op h)]
    omega
  | regOnCancel cb =>
    simp [stepAct, Operation.on_cancel,
      registerOn_idle _ _ _ (in_progress_false op h)]
    omega
  | regOnFinish cb =>
    simp [stepAct, Operation.on_finish,
      registerOn_idle _ _ _ (in_progress_false op h)]
    omega

theorem runActsT_count_nonpos (env : Env) (acts : List Act) (op : Operation)
    (h : op._calls_count ≤ 0) : (runActsT env op acts).1._calls_count ≤ 0 := by
  induction acts generalizing op with
  | nil => exact h
  | cons a rest ih =>
    simp only [runActsT]
    exact ih _ (stepAct_count_nonpos env op a h)

/-- Any number of enter calls from the idle state leave the state unchanged
and produce no event: each one raises TypeError while building the
callbacks container. -/
theorem runActsT_enters (env : Env) (n : Nat) (op : Operation)
    (h : op._calls_count = 0) :
    runActsT env op (List.replicate n Act.enterA) = (op, []) := by
  induction n with
  | zero => rfl
  | succ k ih =>
    simp only [List.replicate_succ, runActsT, stepAct, enter_idle env op h]
    simp [ih]

/-- Any number of exit calls from a nonpositive count produce no event:
each one decrements and returns immediately. -/
theorem runActsT_exits (env : Env) (n : Nat) (op : Operation)
    (h : op._calls_count ≤ 0) :
    (runActsT env op (List.replicate n (Act.exitA none))).2 = [] := by
  induction n generalizing op with
  | zero => rfl
  | succ k ih =>
    simp only [List.replicate_succ, runActsT, stepAct, exit_nonpos env op none h]
    simp only [List.nil_append]
    exact ih _ (by show op._calls_count - 1 ≤ 0; omega)

theorem runActsT_append (env : Env) (l1 l2 : List Act) (op : Operation) :
    runActsT env op (l1 ++ l2) =
      ((runActsT env (runActsT env op l1).1 l2).1,
        (runActsT env op l1).2 ++ (runActsT env (runActsT env op l1).1 l2).2) := by
  induction l1 generalizing op with
  | nil => simp [runActsT]
  | cons a rest ih =>
    simp [runActsT, ih, List.append_assoc]

/-- Claim C9 (confirmed): for every Operation as shipped, the outermost
enter (calls count 0) never completes successfully: Operation._new_callbacks
passes the keyword arguments before_complete, after_complete, on_cancel and
on_finish to the Callbacks dataclass constructor, whose only fields are
persistent and transient, so building the snapshot raises TypeError, and
enter propagates that TypeError leaving the state unchanged. -/
theorem C9_enter_never_succeeds (op : Operation) (env : Env)
    (h : op._calls_count = 0) :
    Operation._new_callbacks op = .error (.typeError "before_complete") ∧
    (Operation.enter env op).2.1 = some (.typeError "before_complete") ∧
    (Operation.enter env op).1 = op := by
  refine ⟨new_callbacks_spec op, ?_, ?_⟩ <;> rw [enter_idle env op h]

/-- Witness for C9 at a concrete Operation and environment. -/
theorem C9_enter_never_succeeds_witness :
    sampleOp._calls_count = 0 ∧
    (Operation.enter env0 sampleOp).2.1 = some (.typeError "before_complete") :=
  ⟨rfl, (C9_enter_never_succeeds sampleOp env0 rfl).2.1⟩

/-- Claim C1 (code_bug evidence): on the shipped code no successful body
execution exists.  Running the with-block with a body that would complete
successfully, on an Operation configured with one context manager and one
callback of every phase, raises TypeError out of enter with an empty event
trace: none of the claimed before_start, resource-enter, after_start,
before_complete, resource-exit, after_complete, on_finish invocations ever
happens, and no result is returned. -/
theorem C1_success_path_never_runs (env : Env) :
    runWith env sampleOp none =
      (sampleOp, some (.typeError "before_complete"), []) := rfl

/-- Claim C2 (code_bug evidence): with a body that would raise a user error,
the with-block still fails with the TypeError from enter, with an empty
trace; in particular the original body error is not the exception that
propagates (the body is never reached), and no on_cancel or on_finish
callback runs. -/
theorem C2_body_error_never_reached (env : Env) :
    runWith env sampleOp (some (.user 7)) =
      (sampleOp, some (.typeError "before_complete"), []) ∧
    (runWith env sampleOp (some (.user 7))).2.1 ≠ some (.user 7) := by
  refine ⟨rfl, ?_⟩
  rw [show runWith env sampleOp (some (.user 7)) =
      (sampleOp, some (.typeError "before_complete"), []) from rfl]
  simp

/-- Claim C3 (code_bug evidence): for every N, a sequence of N enter calls
followed by N exit calls on the sample Operation produces an empty event
trace: the start sequence does not occur even once (each enter raises
TypeError and leaves the state unchanged; each exit then only decrements
the counter), against the claimed exactly-one start and completion
sequence. -/
theorem C3_nested_enters_fire_no_start (env : Env) (n : Nat) :
    (runActsT env sampleOp
      (List.replicate n Act.enterA ++ List.replicate n (Act.exitA none))).2 = [] := by
  rw [runActsT_append, runActsT_enters env n sampleOp rfl]
  simp only [List.nil_append]
  exact runActsT_exits env n sampleOp (by decide)

/-- Claim C4 (code_bug evidence): a body raising Cancel, with either value
of the suppress flag, never runs: the with-block fails with the TypeError
from enter, so the exit does not return normally for suppress = true, the
signal never propagates for suppress = false, and no on_cancel or
on_finish callback runs. -/
theorem C4_cancel_body_never_runs (env : Env) (s : Bool) :
    runWith env sampleOp (some (.cancel s)) =
      (sampleOp, some (.typeError "before_complete"), []) ∧
    (runWith env sampleOp (some (.cancel s))).2.1 ≠ none := by
  refine ⟨rfl, ?_⟩
  rw [show runWith env sampleOp (some (.cancel s)) =
      (sampleOp, some (.typeError "before_complete"), []) from rfl]
  simp

/-- Claim C5 (code_bug evidence): in an environment where the configured
before_start callback (id 1) raises, the outermost enter still fails with
the TypeError from _new_callbacks, with an empty trace: the before_start
callback is never invoked, its error never propagates, and no on_cancel or
on_finish callback runs even once. -/
theorem C5_failing_before_start_never_invoked :
    Operation.enter env5 sampleOp =
      (sampleOp, some (.typeError "before_complete"), []) ∧
    (Operation.enter env5 sampleOp).2.1 ≠ some (.user 1) := by
  refine ⟨rfl, ?_⟩
  rw [show Operation.enter env5 sampleOp =
      (sampleOp, some (.typeError "before_complete"), []) from rfl]
  simp

/-- Claim C6 (code_bug evidence): registration while Idle does fail loudly
with AssertionError, but the Active state is unreachable: starting from any
constructed Operation, every sequence of enter, exit and registration calls
leaves in_progress false, so all four dynamic-registration methods always
raise AssertionError and never succeed, against the claimed
registration-while-Active behaviour. -/
theorem C6_registration_never_succeeds (env : Env)
    (a1 a2 a3 a4 a5 a6 a7 : PyArg) (acts : List Act) (cb : Nat) :
    Operation.in_progress (runActs env (Operation.init a1 a2 a3 a4 a5 a6 a7) acts) = false ∧
    (Operation.before_complete (runActs env (Operation.init a1 a2 a3 a4 a5 a6 a7) acts) cb).2
      = some .assertionError ∧
    (Operation.after_complete (runActs env (Operation.init a1 a2 a3 a4 a5 a6 a7) acts) cb).2
      = some .assertionError ∧
    (Operation.on_cancel (runActs env (Operation.init a1 a2 a3 a4 a5 a6 a7) acts) cb).2
      = some .assertionError ∧
    (Operation.on_finish (runActs env (Operation.init a1 a2 a3 a4 a5 a6 a7) acts) cb).2
      = some .assertionError := by
  have hc : (runActs env (Operation.init a1 a2 a3 a4 a5 a6 a7) acts)._calls_count ≤ 0 :=
    runActsT_count_nonpos env acts _ (by show (0 : Int) ≤ 0; omega)
  have hip := in_progress_false _ hc
  refine ⟨hip, ?_, ?_, ?_, ?_⟩ <;>
    simp [Operation.before_complete, Operation.after_complete,
      Operation.on_cancel, Operation.on_finish, registerOn_idle _ _ _ hip]

/-- Claim C7 (code_bug evidence): the static callback lists are indeed
never mutated by the outermost enter, but only because enter raises
TypeError and leaves the whole state unchanged: in particular no Scope
Snapshot copy of the static lists is ever built (_current keeps its prior
value instead of receiving a fresh Callbacks container). -/
theorem C7_no_snapshot_is_built (env : Env) (op : Operation)
    (h : op._calls_count = 0) :
    (Operation.enter env op).1 = op ∧
    (Operation.enter env op).1._before_complete = op._before_complete ∧
    (Operation.enter env op).1._after_complete = op._after_complete ∧
    (Operation.enter env op).1._on_cancel = op._on_cancel ∧
    (Operation.enter env op).1._on_finish = op._on_finish ∧
    (Operation.enter env op).1._current = op._current ∧
    (Operation.enter env op).2.1 = some (.typeError "before_complete") := by
  rw [enter_idle env op h]
  exact ⟨rfl, rfl, rfl, rfl, rfl, rfl, rfl⟩

/-- Witness for C7 at a concrete Operation and environment. -/
theorem C7_no_snapshot_is_built_witness :
    sampleOp._calls_count = 0 ∧
    (Operation.enter env0 sampleOp).1 = sampleOp ∧
    (Operation.enter env0 sampleOp).1._current = none :=
  ⟨rfl, (C7_no_snapshot_is_built env0 sampleOp rfl).1,
    ((C7_no_snapshot_is_built env0 sampleOp rfl).2.2.2.2.2.1).trans rfl⟩

/-- Counterexample to claim C8: on a freshly constructed Operation, a
single exit call without any prior enter leaves the calls count at minus
one and returns False with no event and no exception: the counter does
become negative, and nothing is signalled loudly. -/
theorem C8_counterexample :
    (Operation.exit env0 freshOp none).1._calls_count = -1 ∧
    (Operation.exit env0 freshOp none).2.1 = ExitOutcome.returns false ∧
    (Operation.exit env0 freshOp none).2.2 = [] :=
  ⟨rfl, rfl, rfl⟩

/-- Claim C8 as amended: an exit call at nonpositive depth (in particular an
exit without a matching prior enter) silently decrements the counter to a
negative value and returns False, producing no event and raising nothing;
no programming-error condition is signalled. -/
theorem C8_amended_silent_negative (env : Env) (op : Operation)
    (excIn : Option Exc) (h : op._calls_count ≤ 0) :
    (Operation.exit env op excIn).1._calls_count = op._calls_count - 1 ∧
    (Operation.exit env op excIn).1._calls_count < 0 ∧
    (Operation.exit env op excIn).2.1 = ExitOutcome.returns false ∧
    (Operation.exit env op excIn).2.2 = [] := by
  rw [exit_nonpos env op excIn h]
  refine ⟨rfl, ?_, rfl, rfl⟩
  show op._calls_count - 1 < 0
  omega

/-- Witness for the amended C8 at a concrete Operation. -/
theorem C8_amended_silent_negative_witness :
    freshOp._calls_count ≤ 0 ∧
    (Operation.exit env0 freshOp none).1._calls_count = freshOp._calls_count - 1 ∧
    (Operation.exit env0 freshOp none).1._calls_count < 0 :=
  ⟨by decide, (C8_amended_silent_negative env0 freshOp none (by decide)).1,
    (C8_amended_silent_negative env0 freshOp none (by decide)).2.1⟩

/-- Claim C10 (confirmed): the Counter value is nonnegative after every
sequence of increment, decrement and reset calls starting from
construction, and decrement on a counter whose value is zero is a silent
no-op: it returns the state unchanged (in particular the value is not
lowered, and being a total function it signals nothing). -/
theorem C10_counter_nonneg_and_silent_noop :
    (∀ ops : List CounterOp, 0 ≤ (Counter.runOps ops).value) ∧
    (∀ c : Counter, c.value = 0 → Counter.decrement c = c) := by
  constructor
  · intro ops
    exact counter_foldl_nonneg ops Counter.init (by decide)
  · intro c h
    have h2 : c._calls_count = 0 := h
    unfold Counter.decrement
    rw [if_neg (by omega)]

/-- Witness for C10 at concrete call sequences. -/
theorem C10_counter_witness :
    0 ≤ (Counter.runOps
      [CounterOp.decrement, CounterOp.increment, CounterOp.decrement,
        CounterOp.decrement]).value ∧
    Counter.init.value = 0 ∧
    Counter.decrement Counter.init = Counter.init :=
  ⟨C10_counter_nonneg_and_silent_noop.1
      [CounterOp.decrement, CounterOp.increment, CounterOp.decrement,
        CounterOp.decrement],
    by decide,
    C10_counter_nonneg_and_silent_noop.2 Counter.init (by decide)⟩

end ClassicOperations
